import Mathlib

/-!
Verification of the NER API request handler (src/app.py).

The repository is a single-file FastAPI service.  The handler logic of
`predict` (src/app.py lines 30-43), the `health` probe (lines 45-47) and the
startup model load (lines 20-23) are embedded below.  The external spaCy
model is treated as the black box the spec describes: a function from an
input string to a document carrying a token list and a list of entity spans.
Python truthiness (`x or ""`, `xs if xs else ys`) is embedded by explicit
helper functions.
-/

/-- A spaCy entity (`ent` in the comprehension at src/app.py lines 37-40):
character offsets `start_char`/`end_char`, the label string `label_`, and the
surface text `ent.text`. -/
structure SpacyEnt where
  start_char : Nat
  end_char : Nat
  label_ : String
  text : String
deriving DecidableEq, Repr

/-- A spaCy document as used by the handler: `doc.ents` and the token texts
`[t.text for t in doc]` (src/app.py lines 36-41). -/
structure SpacyDoc where
  ents : List SpacyEnt
  tokens : List String
deriving DecidableEq, Repr

/-- The loaded NLP model (`nlp` at src/app.py line 21), the black box
`annotate(text) -> (tokens, entities)` of the spec. -/
abbrev NLP := String → SpacyDoc

/-- Request body `PredictIn` (src/app.py lines 25-28).  `text` is `Option`
so that an absent value can be stated; the handler itself guards with
`payload.text or ""` at line 32. -/
structure PredictIn where
  text : Option String
  tokens : Option (List String)
  domain : Option String
deriving DecidableEq, Repr

/-- The `HTTPException(status_code=..., detail=...)` raised at
src/app.py line 34. -/
structure HTTPException where
  status_code : Nat
  detail : String
deriving DecidableEq, Repr

/-- One element of the `entities` list built at src/app.py lines 37-40. -/
structure EntityRecord where
  start : Nat
  «end» : Nat
  label : String
  text : String
deriving DecidableEq, Repr

/-- The success response dictionary returned at src/app.py line 43. -/
structure PredictOut where
  text : String
  entities : List EntityRecord
  tokens : List String
  domain : String
deriving DecidableEq, Repr

/-- Python `str.strip()` as used at src/app.py line 32: remove leading and
trailing whitespace characters.  Defined over the character list so that it
evaluates by kernel reduction. -/
def String.pyStrip (s : String) : String :=
  String.mk
    (((s.data.dropWhile Char.isWhitespace).reverse.dropWhile
        Char.isWhitespace).reverse)

/-- Python `o or ""` on an optional string: `None` and `""` are falsy, so the
result is the string when present and non-empty, `""` otherwise (used at
src/app.py lines 32 and 43). -/
def pyOrEmpty : Option String → String
  | none => ""
  | some s => if s = "" then "" else s

/-- Python `xs if xs else d` for an optional list: `None` and the empty list
are falsy (the token selection at src/app.py line 41). -/
def pyTokensOr (o : Option (List String)) (d : List String) : List String :=
  match o with
  | none => d
  | some l => if l = [] then d else l

/-- Python character slicing `s[a:b]` for `0 ≤ a`, clamped at the ends,
empty when `b ≤ a` (the spec's half-open interval `[start, end)` over
characters). -/
def pySlice (s : String) (a b : Nat) : String :=
  String.mk (((s.data).drop a).take (b - a))

/-- The record `{"start": ..., "end": ..., "label": ..., "text": ...}` built
from one entity at src/app.py line 38. -/
def mkEntityRecord (ent : SpacyEnt) : EntityRecord :=
  { start := ent.start_char, «end» := ent.end_char,
    label := ent.label_, text := ent.text }

/-- The `predict` handler, src/app.py lines 31-43:
`text = (payload.text or "").strip()`; blank text raises
`HTTPException(400, "Text is required")`; otherwise the model is run on the
trimmed text, entities are shaped, tokens are the caller's non-empty list or
the model's, and `domain` is echoed with `or ""`. -/
def predict (nlp : NLP) (payload : PredictIn) : Except HTTPException PredictOut :=
  let text := (pyOrEmpty payload.text).pyStrip
  if text = "" then
    Except.error { status_code := 400, detail := "Text is required" }
  else
    let doc := nlp text
    let entities := doc.ents.map mkEntityRecord
    let tokens := pyTokensOr payload.tokens doc.tokens
    Except.ok { text := text, entities := entities, tokens := tokens,
                domain := pyOrEmpty payload.domain }

/-- Response of `health` (src/app.py lines 45-47). -/
structure HealthOut where
  status : String
deriving DecidableEq, Repr

/-- The `health` handler returns `{"status": "ok"}` (src/app.py line 47). -/
def health : HealthOut :=
  { status := "ok" }

/-- The process state: exactly the loaded model, the only process-wide state
of src/app.py (line 21). -/
structure Process where
  nlp : NLP

/-- Serving one predict request: the state is read, never written. -/
def Process.handlePredict (p : Process) (req : PredictIn) :
    Process × Except HTTPException PredictOut :=
  (p, predict p.nlp req)

/-- Serving one health request: the state is read, never written. -/
def Process.handleHealth (p : Process) : Process × HealthOut :=
  (p, health)

/-- The process state after serving a sequence of predict requests. -/
def Process.afterPredicts (p : Process) (reqs : List PredictIn) : Process :=
  reqs.foldl (fun st r => (st.handlePredict r).1) p

/-- The operator-facing remediation message of src/app.py line 23. -/
def modelInstallMsg : String := "Run: python -m spacy download en_core_web_sm"

/-- The startup model load, src/app.py lines 20-23: `spacy.load` either
yields a model or throws; the `except` clause converts any failure into a
fatal `RuntimeError` carrying `modelInstallMsg`.  The outcome of
`spacy.load` is the argument. -/
def loadModelOrDie (spacyLoadResult : Except String NLP) : Except String NLP :=
  match spacyLoadResult with
  | Except.ok m => Except.ok m
  | Except.error _ => Except.error modelInstallMsg

/-- Process startup: the model is loaded once, before any request is served;
a load failure means no `Process` ever exists. -/
def startProcess (spacyLoadResult : Except String NLP) : Except String Process :=
  match loadModelOrDie spacyLoadResult with
  | Except.ok m => Except.ok { nlp := m }
  | Except.error e => Except.error e

/-- The predict handler instrumented with the number of times the model is applied:
the success branch evaluates `nlp text` once (src/app.py line 36), the
validation branch never reaches it. -/
def predictCountingNlp (nlp : NLP) (payload : PredictIn) :
    Except HTTPException PredictOut × Nat :=
  let text := (pyOrEmpty payload.text).pyStrip
  if text = "" then
    (Except.error { status_code := 400, detail := "Text is required" }, 0)
  else
    let doc := nlp text
    let entities := doc.ents.map mkEntityRecord
    let tokens := pyTokensOr payload.tokens doc.tokens
    (Except.ok { text := text, entities := entities, tokens := tokens,
                 domain := pyOrEmpty payload.domain }, 1)

/-- Decidable equality for `Except`, used to evaluate handler results on
concrete inputs. -/
def exceptDecEq {ε α : Type} [DecidableEq ε] [DecidableEq α] :
    (a b : Except ε α) → Decidable (a = b)
  | Except.error e, Except.error f =>
      if h : e = f then isTrue (by rw [h])
      else isFalse (by intro hh; cases hh; exact h rfl)
  | Except.error _, Except.ok _ => isFalse (by intro hh; cases hh)
  | Except.ok _, Except.error _ => isFalse (by intro hh; cases hh)
  | Except.ok x, Except.ok y =>
      if h : x = y then isTrue (by rw [h])
      else isFalse (by intro hh; cases hh; exact h rfl)

instance {ε α : Type} [DecidableEq ε] [DecidableEq α] :
    DecidableEq (Except ε α) :=
  exceptDecEq

/- Concrete data used by the witnesses. -/

/-- Witness input text. -/
def wText : String := "Hi there"

/-- Witness token/entity surface string. -/
def wHi : String := "Hi"

/-- Witness second token. -/
def wThere : String := "there"

/-- Witness entity label. -/
def wLabel : String := "PERSON"

/-- Witness domain value. -/
def wDomain : String := "test"

/-- Witness blank text (whitespace-only). -/
def wBlank : String := "   "

/-- Witness spaCy entity: spans `[0, 2)` of the witness text. -/
def wEnt : SpacyEnt :=
  { start_char := 0, end_char := 2, label_ := wLabel, text := wHi }

/-- Witness spaCy document. -/
def wDoc : SpacyDoc :=
  { ents := [wEnt], tokens := [wHi, wThere] }

/-- Witness model: returns the witness document on every input. -/
def wNlp : NLP := fun _ => wDoc

/-- Witness request with no caller tokens and no domain. -/
def wPayloadPlain : PredictIn :=
  { text := some wText, tokens := none, domain := none }

/-- Witness request with caller-supplied tokens and a domain. -/
def wPayloadTokens : PredictIn :=
  { text := some wText, tokens := some [wHi], domain := some wDomain }

/-- Witness request whose text is whitespace-only. -/
def wPayloadBlank : PredictIn :=
  { text := some wBlank, tokens := none, domain := none }

/-- Witness response for `wPayloadPlain`. -/
def wRespPlain : PredictOut :=
  { text := wText, entities := [mkEntityRecord wEnt],
    tokens := [wHi, wThere], domain := "" }

/-- Witness response for `wPayloadTokens`. -/
def wRespTokens : PredictOut :=
  { text := wText, entities := [mkEntityRecord wEnt],
    tokens := [wHi], domain := wDomain }

/- Theorems. -/

/-- C1: if the request's `text` is absent, empty, or whitespace-only after
trimming, `predict` fails with exactly the client error 400 whose detail is
"Text is required" — never a server fault. -/
theorem predict_blank_text_is_client_error (nlp : NLP) (payload : PredictIn)
    (h : payload.text = none ∨ ∃ s, payload.text = some s ∧ s.pyStrip = "") :
    predict nlp payload =
      Except.error { status_code := 400, detail := "Text is required" } := by
  have hblank : (pyOrEmpty payload.text).pyStrip = "" := by
    rcases h with h | ⟨s, hs, hst⟩
    · rw [h]; rfl
    · rw [hs]
      by_cases hse : s = ""
      · rw [hse]; rfl
      · simpa [pyOrEmpty, hse] using hst
  unfold predict
  rw [hblank]
  rfl

/-- Witness for C1 at a concrete whitespace-only request. -/
theorem predict_blank_text_is_client_error_witness :
    predict wNlp wPayloadBlank =
      Except.error { status_code := 400, detail := "Text is required" } :=
  predict_blank_text_is_client_error wNlp wPayloadBlank
    (Or.inr ⟨wBlank, rfl, by decide⟩)

/-- Stripping after the `or ""` guard agrees with stripping the supplied
string itself: when the string is empty the guard replaces it by `""`,
whose strip is again empty. -/
theorem pyOrEmpty_some_pyStrip (s : String) :
    (pyOrEmpty (some s)).pyStrip = s.pyStrip := by
  by_cases h : s = "" <;> simp [pyOrEmpty, h]

/-- Characterization of a successful `predict` call: the response is exactly
the dictionary built at src/app.py line 43. -/
theorem predict_ok_elim {nlp : NLP} {payload : PredictIn} {resp : PredictOut}
    (h : predict nlp payload = Except.ok resp) :
    resp =
      { text := (pyOrEmpty payload.text).pyStrip,
        entities :=
          ((nlp ((pyOrEmpty payload.text).pyStrip)).ents).map mkEntityRecord,
        tokens :=
          pyTokensOr payload.tokens
            ((nlp ((pyOrEmpty payload.text).pyStrip)).tokens),
        domain := pyOrEmpty payload.domain } := by
  simp only [predict] at h
  split at h
  · simp at h
  · exact (Except.ok.inj h).symm

/-- C2: when the caller supplies a non-empty `tokens` sequence, the
response's `tokens` field equals that sequence verbatim, bypassing the
model's tokenizer output entirely. -/
theorem tokens_override_used_verbatim (nlp : NLP) (payload : PredictIn)
    (ts : List String) (resp : PredictOut)
    (hts : payload.tokens = some ts) (hne : ts ≠ [])
    (hok : predict nlp payload = Except.ok resp) :
    resp.tokens = ts := by
  rw [predict_ok_elim hok]
  simp [pyTokensOr, hts, hne]

/-- Witness for C2 at a concrete request carrying its own token list. -/
theorem tokens_override_used_verbatim_witness :
    wRespTokens.tokens = [wHi] :=
  tokens_override_used_verbatim wNlp wPayloadTokens [wHi] wRespTokens rfl
    (by decide) (by decide)

/-- C3: when the caller omits `tokens` or supplies an empty list, the
response's `tokens` field is the model's own tokenization of the trimmed
input text. -/
theorem tokens_default_model_tokenization (nlp : NLP) (payload : PredictIn)
    (resp : PredictOut)
    (hts : payload.tokens = none ∨ payload.tokens = some [])
    (hok : predict nlp payload = Except.ok resp) :
    resp.tokens = (nlp ((pyOrEmpty payload.text).pyStrip)).tokens := by
  rw [predict_ok_elim hok]
  rcases hts with h | h <;> simp [pyTokensOr, h]

/-- Witness for C3 at a concrete request without caller tokens. -/
theorem tokens_default_model_tokenization_witness :
    wRespPlain.tokens = (wNlp ((pyOrEmpty wPayloadPlain.text).pyStrip)).tokens :=
  tokens_default_model_tokenization wNlp wPayloadPlain wRespPlain
    (Or.inl rfl) (by decide)

/-- C4: on a successful call the response's `text` field is the input text
with leading and trailing whitespace removed. -/
theorem response_text_is_trimmed_input (nlp : NLP) (payload : PredictIn)
    (s : String) (resp : PredictOut)
    (hs : payload.text = some s)
    (hok : predict nlp payload = Except.ok resp) :
    resp.text = s.pyStrip := by
  rw [predict_ok_elim hok, hs]
  exact pyOrEmpty_some_pyStrip s

/-- Witness for C4 at a concrete request. -/
theorem response_text_is_trimmed_input_witness :
    wRespPlain.text = wText.pyStrip :=
  response_text_is_trimmed_input wNlp wPayloadPlain wText wRespPlain rfl
    (by decide)

/-- C5: assuming the spaCy guarantee that each entity's surface text is the
slice of the analysed text at its character offsets, every entity record of
a successful response satisfies `text[start:end] = record.text`, with the
slice taken in the response's own `text` field. -/
theorem entity_text_matches_span (nlp : NLP) (payload : PredictIn)
    (resp : PredictOut)
    (hok : predict nlp payload = Except.ok resp)
    (hspacy : ∀ ent ∈ (nlp resp.text).ents,
        ent.text = pySlice resp.text ent.start_char ent.end_char) :
    ∀ er ∈ resp.entities, pySlice resp.text er.start er.«end» = er.text := by
  have hresp := predict_ok_elim hok
  have htext : resp.text = (pyOrEmpty payload.text).pyStrip := by rw [hresp]
  intro er her
  rw [hresp] at her
  simp only [List.mem_map] at her
  obtain ⟨ent, hent, rfl⟩ := her
  rw [htext] at hspacy
  have := hspacy ent hent
  simp only [mkEntityRecord, htext]
  exact this.symm

/-- Witness for C5 at a concrete model and request. -/
theorem entity_text_matches_span_witness :
    pySlice wRespPlain.text (mkEntityRecord wEnt).start
        (mkEntityRecord wEnt).«end» =
      (mkEntityRecord wEnt).text :=
  entity_text_matches_span wNlp wPayloadPlain wRespPlain (by decide)
    (by decide) (mkEntityRecord wEnt) (by decide)

/-- C6: the response's entity list is exactly the model's entity list mapped
through the record constructor — one record per model entity, in the model's
order, offsets and label copied unchanged. -/
theorem entities_preserve_model_output (nlp : NLP) (payload : PredictIn)
    (resp : PredictOut)
    (hok : predict nlp payload = Except.ok resp) :
    resp.entities =
      ((nlp ((pyOrEmpty payload.text).pyStrip)).ents).map mkEntityRecord := by
  rw [predict_ok_elim hok]

/-- Witness for C6 at a concrete model and request. -/
theorem entities_preserve_model_output_witness :
    wRespPlain.entities =
      ((wNlp ((pyOrEmpty wPayloadPlain.text).pyStrip)).ents).map
        mkEntityRecord :=
  entities_preserve_model_output wNlp wPayloadPlain wRespPlain (by decide)

/-- C7: the response's `domain` field is the caller's domain unchanged when
one was supplied, and the empty string when it was omitted. -/
theorem domain_roundtrip (nlp : NLP) (payload : PredictIn) (resp : PredictOut)
    (hok : predict nlp payload = Except.ok resp) :
    (∀ d, payload.domain = some d → resp.domain = d) ∧
      (payload.domain = none → resp.domain = "") := by
  rw [predict_ok_elim hok]
  constructor
  · intro d hd
    rw [hd]
    by_cases h : d = "" <;> simp [pyOrEmpty, h]
  · intro h
    rw [h]
    rfl

/-- Witness for C7 at a concrete request supplying a domain. -/
theorem domain_roundtrip_witness : wRespTokens.domain = wDomain :=
  (domain_roundtrip wNlp wPayloadTokens wRespTokens (by decide)).1 wDomain rfl

/-- Serving predict requests never changes the process state. -/
theorem afterPredicts_eq (p : Process) (reqs : List PredictIn) :
    p.afterPredicts reqs = p := by
  induction reqs generalizing p with
  | nil => rfl
  | cons r rs ih => exact ih p

/-- C8: `health` returns exactly `{status := "ok"}`, with no inputs and no
state change, and its result is the same before or after any number of
predict calls. -/
theorem health_always_ok (p : Process) (reqs : List PredictIn) :
    (p.handleHealth).2 = { status := "ok" } ∧
      ((p.afterPredicts reqs).handleHealth).2 = { status := "ok" } ∧
      (p.handleHealth).1 = p ∧
      p.afterPredicts reqs = p := by
  exact ⟨rfl, rfl, rfl, afterPredicts_eq p reqs⟩

/-- C9: when the model load fails, startup fails with the operator-facing
install message, and no process (hence no served request) ever exists. -/
theorem startup_fails_without_model (e : String) :
    startProcess (Except.error e) = Except.error modelInstallMsg ∧
      ∀ p : Process, startProcess (Except.error e) ≠ Except.ok p := by
  constructor
  · rfl
  · intro p h
    simp [startProcess, loadModelOrDie] at h

/-- C10: on blank-text requests the validation error is produced with zero
invocations of the model: the instrumented handler counts no model call,
returns the 400 error, and the result does not depend on the model at all. -/
theorem blank_text_skips_model (nlp : NLP) (payload : PredictIn)
    (hblank : (pyOrEmpty payload.text).pyStrip = "") :
    (predictCountingNlp nlp payload).2 = 0 ∧
      (predictCountingNlp nlp payload).1 =
        Except.error { status_code := 400, detail := "Text is required" } ∧
      ∀ nlp2 : NLP, predict nlp payload = predict nlp2 payload := by
  refine ⟨?_, ?_, ?_⟩ <;> simp [predictCountingNlp, predict, hblank]

/-- Witness for C10 at a concrete whitespace-only request. -/
theorem blank_text_skips_model_witness :
    (predictCountingNlp wNlp wPayloadBlank).2 = 0 :=
  (blank_text_skips_model wNlp wPayloadBlank (by decide)).1
